import Mathlib

/-!
Shallow embedding of `src/stock_signal_notifier.py` (stock-notifier).

Python floats flowing through the pipeline are modelled by `PFloat`:
either a genuine number (a rational — every claim depends only on order
comparisons and exact arithmetic on decimal constants, never on binary
rounding) or IEEE NaN, which pandas produces for a rolling window with
insufficient data.  Every comparison involving NaN is false, as in Python.

Rationale strings are abstracted to `Reason` tags: the source builds lists
of formatted strings, and each claim depends only on which condition
appended which entry and in what order, not on the float formatting.
-/

/-- A Python float value: a number or NaN.  Comparisons with NaN are false. -/
inductive PFloat
  | nan
  | val (q : ℚ)
  deriving DecidableEq, Repr

/-- `a < b` on Python floats: false when either side is NaN. -/
def PFloat.lt : PFloat → PFloat → Bool
  | .val a, .val b => decide (a < b)
  | _, _ => false

/-- `a <= b` on Python floats: false when either side is NaN. -/
def PFloat.le : PFloat → PFloat → Bool
  | .val a, .val b => decide (a ≤ b)
  | _, _ => false

/-- Multiplication of a Python float by a numeric literal (`low_3m * NEAR_LOW_BUFFER`
and `sma20 * ABOVE_SMA20_SELL_BUFFER`); NaN propagates. -/
def PFloat.scale : PFloat → ℚ → PFloat
  | .nan, _ => .nan
  | .val a, c => .val (a * c)

-- ---------------------------- CONFIG ---------------------------------

def LOW_WINDOW_DAYS : ℕ := 60

def RSI_OVERSOLD : ℚ := 30
def RSI_OVERBOUGHT : ℚ := 70
def PE_MAX_FOR_BUY : ℚ := 30
def NEAR_LOW_BUFFER : ℚ := 105 / 100
def ABOVE_SMA20_SELL_BUFFER : ℚ := 105 / 100

def SEND_EMAIL_IF_NO_BUY : Bool := false

-- ----------------------------------------------------------------------

/-- The `Indicators` dataclass.  `last_price = float(close.iloc[-1])` is a
genuine number whenever the close series holds numbers, so it is a plain `ℚ`;
the remaining fields are `float | None` in the source and may carry NaN. -/
structure Indicators where
  last_price : ℚ
  sma20 : Option PFloat
  sma50 : Option PFloat
  rsi : Option PFloat
  low_3m : Option PFloat
  trailing_pe : Option PFloat
  price_to_book : Option PFloat
  deriving DecidableEq, Repr

/-- One rationale entry, abstracting the formatted string the source appends. -/
inductive Reason
  | rsiOversold
  | nearLow
  | valuationOk
  | belowSMA20
  | rsiOverbought
  | aboveSMA20
  | ctxRSI
  | ctxTrend (up : Bool)
  deriving DecidableEq, Repr

inductive Signal
  | BUY
  | SELL
  | HOLD
  deriving DecidableEq, Repr

-- The four BUY sub-conditions and two SELL sub-conditions of `build_signal`,
-- each mirroring one `if` guard (`x is not None and <cmp>`; NaN compares false).

/-- `rsi is not None and rsi < RSI_OVERSOLD`. -/
def rsi_oversold_cond (ind : Indicators) : Bool :=
  match ind.rsi with
  | none => false
  | some r => r.lt (.val RSI_OVERSOLD)

/-- `low_3m is not None and price <= low_3m * NEAR_LOW_BUFFER`. -/
def near_low_cond (ind : Indicators) : Bool :=
  match ind.low_3m with
  | none => false
  | some l => PFloat.le (.val ind.last_price) (l.scale NEAR_LOW_BUFFER)

/-- `pe is None or pe <= PE_MAX_FOR_BUY`. -/
def valuation_ok_cond (ind : Indicators) : Bool :=
  match ind.trailing_pe with
  | none => true
  | some p => p.le (.val PE_MAX_FOR_BUY)

/-- `sma20 is not None and price < sma20`. -/
def below_sma20_cond (ind : Indicators) : Bool :=
  match ind.sma20 with
  | none => false
  | some s => PFloat.lt (.val ind.last_price) s

/-- `rsi is not None and rsi > RSI_OVERBOUGHT`. -/
def rsi_overbought_cond (ind : Indicators) : Bool :=
  match ind.rsi with
  | none => false
  | some r => PFloat.lt (.val RSI_OVERBOUGHT) r

/-- `sma20 is not None and price > sma20 * ABOVE_SMA20_SELL_BUFFER`. -/
def above_sma20_cond (ind : Indicators) : Bool :=
  match ind.sma20 with
  | none => false
  | some s => PFloat.lt (s.scale ABOVE_SMA20_SELL_BUFFER) (.val ind.last_price)

/-- The `buy_reasons` list, appended in source order. -/
def buy_reasons (ind : Indicators) : List Reason :=
  (if rsi_oversold_cond ind then [Reason.rsiOversold] else []) ++
  (if near_low_cond ind then [Reason.nearLow] else []) ++
  (if valuation_ok_cond ind then [Reason.valuationOk] else []) ++
  (if below_sma20_cond ind then [Reason.belowSMA20] else [])

/-- The `sell_reasons` list, appended in source order. -/
def sell_reasons (ind : Indicators) : List Reason :=
  (if rsi_overbought_cond ind then [Reason.rsiOverbought] else []) ++
  (if above_sma20_cond ind then [Reason.aboveSMA20] else [])

/-- The contextual bullets added on the HOLD branch:
`RSI <v>` when `rsi is not None`, and the trend note when both SMAs are
`not None`, with `trend = "up" if sma20 > sma50 else "down"`. -/
def hold_context (ind : Indicators) : List Reason :=
  (if ind.rsi.isSome then [Reason.ctxRSI] else []) ++
  (match ind.sma20, ind.sma50 with
   | some s20, some s50 => [Reason.ctxTrend (PFloat.lt s50 s20)]
   | _, _ => [])

/-- `build_signal`: the decision rubric.  Returns the signal together with the
rationale list (the source joins it with `"; "` for display). -/
def build_signal (ind : Indicators) : Signal × List Reason :=
  if 3 ≤ (buy_reasons ind).length then
    (Signal.BUY, buy_reasons ind)
  else if 1 ≤ (sell_reasons ind).length then
    (Signal.SELL, sell_reasons ind)
  else
    (Signal.HOLD, hold_context ind)

/-- Number of satisfied BUY sub-conditions. -/
def buy_cond_count (ind : Indicators) : ℕ :=
  (if rsi_oversold_cond ind then 1 else 0) +
  (if near_low_cond ind then 1 else 0) +
  (if valuation_ok_cond ind then 1 else 0) +
  (if below_sma20_cond ind then 1 else 0)

/-- Number of satisfied SELL sub-conditions. -/
def sell_cond_count (ind : Indicators) : ℕ :=
  (if rsi_overbought_cond ind then 1 else 0) +
  (if above_sma20_cond ind then 1 else 0)

theorem buy_reasons_length (ind : Indicators) :
    (buy_reasons ind).length = buy_cond_count ind := by
  unfold buy_reasons buy_cond_count
  cases rsi_oversold_cond ind <;> cases near_low_cond ind <;>
    cases valuation_ok_cond ind <;> cases below_sma20_cond ind <;> rfl

theorem sell_reasons_length (ind : Indicators) :
    (sell_reasons ind).length = sell_cond_count ind := by
  unfold sell_reasons sell_cond_count
  cases rsi_overbought_cond ind <;> cases above_sma20_cond ind <;> rfl

-- ----------------------- Indicator Calculator -------------------------

/-- `close.rolling(n).mean()` at the last row: NaN when the series is shorter
than the window, else the arithmetic mean of the trailing `n` closes. -/
def sma_last (n : ℕ) (closes : List ℚ) : PFloat :=
  if closes.length < n then .nan
  else .val ((closes.drop (closes.length - n)).sum / (n : ℚ))

/-- `close.diff(1)` without its leading NaN: day-over-day changes. -/
def diffs (closes : List ℚ) : List ℚ :=
  (closes.tail.zip closes).map fun p => p.1 - p.2

def rsi_window : ℕ := 14

/-- `Series.ewm(alpha, adjust=False).mean()` at the last row
(`y0 = x0`, `yt = (1-alpha)*y(t-1) + alpha*xt`). -/
def ewm_last (alpha : ℚ) (xs : List ℚ) : ℚ :=
  match xs with
  | [] => 0
  | x :: rest => rest.foldl (fun acc y => (1 - alpha) * acc + alpha * y) x

/-- `RSIIndicator(close).rsi()` at the last row (ta library, window 14,
`fillna=False`): NaN until `min_periods = 14` observations exist; afterwards
`100` when the smoothed loss is zero, else `100 - 100/(1 + emaup/emadn)`.
The leading NaN of `diff(1)` is replaced by `0.0` by `where(..., 0.0)`. -/
def rsi_last (closes : List ℚ) : PFloat :=
  if closes.length < rsi_window then .nan
  else
    let ds := diffs closes
    let up := 0 :: ds.map (fun d => if 0 < d then d else 0)
    let dn := 0 :: ds.map (fun d => if d < 0 then -d else 0)
    let emaup := ewm_last (1 / (rsi_window : ℚ)) up
    let emadn := ewm_last (1 / (rsi_window : ℚ)) dn
    .val (if emadn = 0 then 100 else 100 - 100 / (1 + emaup / emadn))

/-- `Series.min()`: NaN on an empty series, else the minimum. -/
def series_min (closes : List ℚ) : PFloat :=
  match closes with
  | [] => .nan
  | x :: xs => .val (xs.foldl min x)

/-- `close.tail(LOW_WINDOW_DAYS).min() if len(close) >= LOW_WINDOW_DAYS else close.min()`. -/
def low_3m_last (closes : List ℚ) : PFloat :=
  if LOW_WINDOW_DAYS ≤ closes.length then
    series_min (closes.drop (closes.length - LOW_WINDOW_DAYS))
  else series_min closes

/-- `_safe_float` applied to a pandas float scalar: `float(x)` succeeds on every
float, NaN included, so the result is never `None` on this path. -/
def safe_float_scalar (x : PFloat) : Option PFloat := some x

/-- `_safe_float` applied to a value from the valuation lookup
(`info.get("trailingPE")` etc.): `None` or a non-numeric value makes
`float(...)` raise, yielding `None`; the lookup result is modelled
post-extraction as `Option ℚ` (`none` = absent or non-numeric). -/
def safe_float_lookup (x : Option ℚ) : Option PFloat :=
  match x with
  | none => none
  | some q => some (.val q)

/-- `compute_indicators`: pure part of the calculator, over the close column
(oldest first) and the already-extracted valuation fields.  `last_price =
float(close.iloc[-1])`; callers guarantee a non-empty series (the default `0`
of `getLastD` is unreachable then). -/
def compute_indicators (closes : List ℚ) (trailingPE priceToBook : Option ℚ) :
    Indicators :=
  { last_price := closes.getLastD 0
    sma20 := safe_float_scalar (sma_last 20 closes)
    sma50 := safe_float_scalar (sma_last 50 closes)
    rsi := safe_float_scalar (rsi_last closes)
    low_3m := safe_float_scalar (low_3m_last closes)
    trailing_pe := safe_float_lookup trailingPE
    price_to_book := safe_float_lookup priceToBook }

/-- `fetch_history`: the downloaded frame is the input; an empty frame raises
`ValueError` naming the ticker, otherwise the frame is returned. -/
def fetch_history (ticker : String) (data : List ℚ) : Except String (List ℚ) :=
  if data.isEmpty then
    Except.error ("No price data for " ++ ticker ++
      " (check symbol or internet connection)")
  else Except.ok data

-- ----------------------- Report / Dispatch ---------------------------

/-- External data for one ticker: its downloaded close series and the
valuation lookup results. -/
structure TickerData where
  closes : List ℚ
  trailingPE : Option ℚ
  priceToBook : Option ℚ
  deriving DecidableEq, Repr

/-- One report row: a classified line (`format_row`) or an error marker. -/
inductive Row
  | line (ticker : String) (ind : Indicators) (signal : Signal) (why : List Reason)
  | error (ticker : String) (msg : String)
  deriving DecidableEq, Repr

def Row.ticker : Row → String
  | .line t _ _ _ => t
  | .error t _ => t

/-- The body of `main`'s per-ticker `try`/`except`: fetch, compute, classify;
a failure becomes an `ERROR` row carrying the exception text. -/
def process_ticker (t : String) (d : TickerData) : Row :=
  match fetch_history t d.closes with
  | .error e => Row.error t e
  | .ok df =>
      let ind := compute_indicators df d.trailingPE d.priceToBook
      let sw := build_signal ind
      Row.line t ind sw.1 sw.2

/-- One iteration of `main`'s loop: append the row and bump
`summary_flags[signal]` when the signal is BUY or SELL. -/
def main_step (acc : List Row × ℕ × ℕ) (p : String × TickerData) :
    List Row × ℕ × ℕ :=
  match process_ticker p.1 p.2 with
  | Row.line t ind Signal.BUY why =>
      (acc.1 ++ [Row.line t ind Signal.BUY why], acc.2.1 + 1, acc.2.2)
  | Row.line t ind Signal.SELL why =>
      (acc.1 ++ [Row.line t ind Signal.SELL why], acc.2.1, acc.2.2 + 1)
  | row => (acc.1 ++ [row], acc.2.1, acc.2.2)

/-- `main`'s loop over the ticker list: rows plus the BUY and SELL tallies. -/
def main_run (inputs : List (String × TickerData)) : List Row × ℕ × ℕ :=
  inputs.foldl main_step ([], 0, 0)

/-- `SEND_EMAIL_IF_NO_BUY or any(v > 0 for v in summary_flags.values())`,
with the configuration flag abstracted as a parameter. -/
def should_email (sendAlways : Bool) (buys sells : ℕ) : Bool :=
  sendAlways || decide (0 < buys) || decide (0 < sells)

/-- The dispatch decision `main` makes for a given run. -/
def main_should_email (inputs : List (String × TickerData)) : Bool :=
  should_email SEND_EMAIL_IF_NO_BUY (main_run inputs).2.1 (main_run inputs).2.2

/-- `build_report`: dated header, 80-dash rule, one line per row. -/
def build_report (today : String) (rows : List String) : String :=
  let header := "Stock Signals — " ++ today ++ "\n" ++
    String.mk (List.replicate 80 '-')
  header ++ "\n" ++ String.intercalate "\n" rows

-- --------------------------- Helper lemmas ----------------------------

theorem build_signal_eq (ind : Indicators) :
    build_signal ind =
      if 3 ≤ buy_cond_count ind then (Signal.BUY, buy_reasons ind)
      else if 1 ≤ sell_cond_count ind then (Signal.SELL, sell_reasons ind)
      else (Signal.HOLD, hold_context ind) := by
  unfold build_signal
  rw [buy_reasons_length, sell_reasons_length]

theorem process_ticker_ticker (t : String) (d : TickerData) :
    (process_ticker t d).ticker = t := by
  unfold process_ticker
  split <;> rfl

theorem main_run_rows (inputs : List (String × TickerData)) :
    (main_run inputs).1 = inputs.map fun p => process_ticker p.1 p.2 := by
  have key : ∀ (l : List (String × TickerData)) (acc : List Row × ℕ × ℕ),
      (l.foldl main_step acc).1 = acc.1 ++ l.map fun p => process_ticker p.1 p.2 := by
    intro l
    induction l with
    | nil => intro acc; simp
    | cons p l ih =>
        intro acc
        rw [List.foldl_cons, ih]
        have h1 : (main_step acc p).1 = acc.1 ++ [process_ticker p.1 p.2] := by
          unfold main_step
          split <;> simp_all
        rw [h1]
        simp
  simpa using key inputs ([], 0, 0)

-- ----------------------------- Claims ---------------------------------

/-- C1: the classifier returns BUY iff at least 3 of the 4 BUY
sub-conditions hold, with the BUY-reason list as rationale; exactly 2
satisfied sub-conditions are never BUY; and an Indicator Set meeting both the
BUY bar (≥ 3) and the SELL bar (≥ 1) classifies as BUY, since BUY is
evaluated first. -/
theorem claim_C1 :
    (∀ ind : Indicators,
       (build_signal ind).1 = Signal.BUY ↔ 3 ≤ buy_cond_count ind) ∧
    (∀ ind : Indicators,
       (build_signal ind).1 = Signal.BUY → (build_signal ind).2 = buy_reasons ind) ∧
    (∀ ind : Indicators,
       buy_cond_count ind = 2 → (build_signal ind).1 ≠ Signal.BUY) ∧
    (∀ ind : Indicators,
       3 ≤ buy_cond_count ind → 1 ≤ sell_cond_count ind →
         (build_signal ind).1 = Signal.BUY) := by
  refine ⟨fun ind => ?_, fun ind h => ?_, fun ind h2 => ?_, fun ind h3 _ => ?_⟩
  · rw [build_signal_eq]
    split_ifs with h1 h2
    · simp [h1]
    · simp [h1]
    · simp [h1]
  · rw [build_signal_eq] at h ⊢
    split_ifs at h ⊢ <;> simp_all
  · rw [build_signal_eq]
    split_ifs with h1 h2
    · omega
    · simp
    · simp
  · rw [build_signal_eq, if_pos h3]

/-- C1 witness: a 4-of-4 Indicator Set is BUY; a 2-of-4 one is not; one
meeting both bars is BUY. -/
theorem claim_C1_witness :
    (build_signal ⟨95, some (.val 100), none, some (.val 25), some (.val 94), none, none⟩).1
      = Signal.BUY ∧
    (build_signal ⟨100, some (.val 100), none, some (.val 50), some (.val 96), none, none⟩).1
      ≠ Signal.BUY ∧
    (build_signal ⟨104, some (.val 90), none, some (.val 25), some (.val 100), none, none⟩).1
      = Signal.BUY :=
  ⟨(claim_C1.1 _).mpr (by with_unfolding_all decide),
   claim_C1.2.2.1 _ (by with_unfolding_all decide),
   claim_C1.2.2.2 _ (by with_unfolding_all decide) (by with_unfolding_all decide)⟩

/-- C2: when fewer than 3 BUY sub-conditions hold, the classifier returns
SELL iff at least 1 of the 2 SELL sub-conditions holds (a single one
suffices), with the SELL-reason list as rationale. -/
theorem claim_C2 :
    ∀ ind : Indicators, buy_cond_count ind < 3 →
      (((build_signal ind).1 = Signal.SELL ↔ 1 ≤ sell_cond_count ind) ∧
       ((build_signal ind).1 = Signal.SELL →
         (build_signal ind).2 = sell_reasons ind)) := by
  intro ind hbuy
  constructor
  · rw [build_signal_eq]
    split_ifs with h1 h2
    · omega
    · simp [h2]
    · simp [h2]
  · intro h
    rw [build_signal_eq] at h ⊢
    split_ifs at h ⊢ <;> simp_all

/-- C2 witness: RSI = 75 with the SMA20 condition false still yields SELL. -/
theorem claim_C2_witness :
    buy_cond_count ⟨100, some (.val 100), none, some (.val 75), none, none, none⟩ < 3 ∧
    (build_signal ⟨100, some (.val 100), none, some (.val 75), none, none, none⟩).1
      = Signal.SELL :=
  ⟨by with_unfolding_all decide,
   (claim_C2 _ (by with_unfolding_all decide)).1.mpr (by with_unfolding_all decide)⟩

/-- C3: a null trailing P/E counts as a satisfied valuation BUY reason,
exactly as a P/E ≤ `PE_MAX_FOR_BUY` would, never as unsatisfied or as an
error. -/
theorem claim_C3 :
    ∀ ind : Indicators, ind.trailing_pe = none →
      valuation_ok_cond ind = true ∧
      Reason.valuationOk ∈ buy_reasons ind ∧
      ∀ q : ℚ, q ≤ PE_MAX_FOR_BUY →
        buy_reasons ind =
          buy_reasons { ind with trailing_pe := some (.val q) } := by
  intro ind h
  have hval : valuation_ok_cond ind = true := by
    unfold valuation_ok_cond; rw [h]
  refine ⟨hval, ?_, fun q hq => ?_⟩
  · unfold buy_reasons
    rw [hval]
    simp
  · have h1 : rsi_oversold_cond { ind with trailing_pe := some (.val q) }
        = rsi_oversold_cond ind := rfl
    have h2 : near_low_cond { ind with trailing_pe := some (.val q) }
        = near_low_cond ind := rfl
    have h3 : below_sma20_cond { ind with trailing_pe := some (.val q) }
        = below_sma20_cond ind := rfl
    have h4 : valuation_ok_cond { ind with trailing_pe := some (.val q) } = true := by
      unfold valuation_ok_cond
      simp only [PFloat.le]
      exact decide_eq_true hq
    unfold buy_reasons
    rw [h1, h2, h3, h4, hval]

/-- C3 witness: with all indicators null, the valuation reason is satisfied
and swapping the null P/E for P/E = 20 leaves the BUY-reason list unchanged. -/
theorem claim_C3_witness :
    valuation_ok_cond ⟨100, none, none, none, none, none, none⟩ = true ∧
    Reason.valuationOk ∈ buy_reasons ⟨100, none, none, none, none, none, none⟩ ∧
    buy_reasons ⟨100, none, none, none, none, none, none⟩ =
      buy_reasons ⟨100, none, none, none, none, some (.val 20), none⟩ :=
  ⟨(claim_C3 _ rfl).1, (claim_C3 _ rfl).2.1, (claim_C3 _ rfl).2.2 20 (by decide)⟩

/-- C4: evaluation of the calculator on a one-observation series.  The claim
says sma20/sma50/rsi are null for short series; the code instead stores NaN,
because `_safe_float(float('nan'))` returns NaN rather than `None`
(`float(nan)` does not raise), so the fields are never `None` on this path. -/
theorem claim_C4_eval :
    (compute_indicators [100] none none).sma20 = some PFloat.nan ∧
    (compute_indicators [100] none none).sma50 = some PFloat.nan ∧
    (compute_indicators [100] none none).rsi = some PFloat.nan ∧
    (compute_indicators [100] none none).sma20 ≠ none := by
  refine ⟨rfl, rfl, ?_, by decide⟩
  rfl

/-- C5: with every indicator null except `last_price`, the classifier returns
HOLD with an empty rationale; in general (the classifier being a total
function of the Indicator Set, so it never fails) a comparison against a null
indicator never counts as a satisfied sub-condition. -/
theorem claim_C5 :
    (∀ (p : ℚ) (pb : Option PFloat),
       build_signal ⟨p, none, none, none, none, none, pb⟩ = (Signal.HOLD, [])) ∧
    (∀ ind : Indicators, ind.rsi = none →
       rsi_oversold_cond ind = false ∧ rsi_overbought_cond ind = false) ∧
    (∀ ind : Indicators, ind.low_3m = none → near_low_cond ind = false) ∧
    (∀ ind : Indicators, ind.sma20 = none →
       below_sma20_cond ind = false ∧ above_sma20_cond ind = false) := by
  refine ⟨fun p pb => rfl, fun ind h => ?_, fun ind h => ?_, fun ind h => ?_⟩
  · exact ⟨by simp [rsi_oversold_cond, h], by simp [rsi_overbought_cond, h]⟩
  · simp [near_low_cond, h]
  · exact ⟨by simp [below_sma20_cond, h], by simp [above_sma20_cond, h]⟩

/-- C5 witness: the all-null Indicator Set at price 100 is HOLD with empty
rationale, and its null RSI contributes no oversold reason. -/
theorem claim_C5_witness :
    build_signal ⟨100, none, none, none, none, none, none⟩ = (Signal.HOLD, []) ∧
    rsi_oversold_cond ⟨100, none, none, none, none, none, none⟩ = false :=
  ⟨claim_C5.1 100 none, (claim_C5.2.1 _ rfl).1⟩

/-- C6: on an empty close series the calculator pipeline fails with an error
naming the symbol; on any non-empty series it succeeds and `last_price` is
the final close. -/
theorem claim_C6 :
    (∀ t : String, fetch_history t [] =
       Except.error ("No price data for " ++ t ++
         " (check symbol or internet connection)")) ∧
    (∀ (t : String) (closes : List ℚ) (h : closes ≠ []),
       fetch_history t closes = Except.ok closes ∧
       ∀ pe pb, (compute_indicators closes pe pb).last_price =
         closes.getLast h) := by
  refine ⟨fun t => rfl, fun t closes h => ⟨?_, fun pe pb => ?_⟩⟩
  · unfold fetch_history
    rw [if_neg]
    simp [h]
  · show closes.getLastD 0 = closes.getLast h
    rw [List.getLastD_eq_getLast?, List.getLast?_eq_getLast closes h]
    rfl

/-- C6 witness: the empty series for "AAPL" errors with a message naming
"AAPL"; the one-element series [100] yields last_price = its last close. -/
theorem claim_C6_witness :
    fetch_history "AAPL" [] =
      Except.error ("No price data for " ++ "AAPL" ++
        " (check symbol or internet connection)") ∧
    (compute_indicators [100] none none).last_price =
      ([100] : List ℚ).getLast (by simp) :=
  ⟨claim_C6.1 "AAPL", (claim_C6.2 "AAPL" [100] (by simp)).2 none none⟩

/-- C7: HOLD is decided by the reason counts alone (notes never change the
classification); on HOLD the rationale is exactly the contextual notes: an
RSI note iff RSI is known, a trend note iff both SMAs are known, reading
"up" exactly when sma20 > sma50 and "down" otherwise — in particular
SMA20 = SMA50 yields "down". -/
theorem claim_C7 :
    (∀ ind : Indicators, (build_signal ind).1 = Signal.HOLD ↔
       (buy_cond_count ind < 3 ∧ sell_cond_count ind = 0)) ∧
    (∀ ind : Indicators, (build_signal ind).1 = Signal.HOLD →
       (build_signal ind).2 = hold_context ind) ∧
    (∀ ind : Indicators, Reason.ctxRSI ∈ hold_context ind ↔ ind.rsi.isSome = true) ∧
    (∀ (ind : Indicators) (s20 s50 : PFloat),
       ind.sma20 = some s20 → ind.sma50 = some s50 →
       ∀ u : Bool, Reason.ctxTrend u ∈ hold_context ind ↔ u = PFloat.lt s50 s20) ∧
    (∀ ind : Indicators, ind.sma20 = none ∨ ind.sma50 = none →
       ∀ u : Bool, Reason.ctxTrend u ∉ hold_context ind) ∧
    (∀ (ind : Indicators) (q : ℚ),
       ind.sma20 = some (.val q) → ind.sma50 = some (.val q) →
       Reason.ctxTrend false ∈ hold_context ind) := by
  refine ⟨fun ind => ?_, fun ind h => ?_, fun ind => ?_,
    fun ind s20 s50 h20 h50 u => ?_, fun ind h u => ?_, fun ind q h20 h50 => ?_⟩
  · rw [build_signal_eq]
    split_ifs with h1 h2
    · exact ⟨fun hc => by simp at hc, fun hc => by omega⟩
    · exact ⟨fun hc => by simp at hc, fun hc => by omega⟩
    · exact ⟨fun _ => by omega, fun _ => rfl⟩
  · rw [build_signal_eq] at h ⊢
    split_ifs at h ⊢ <;> simp_all
  · rcases hr : ind.rsi with _ | r <;>
      rcases h20 : ind.sma20 with _ | s20 <;>
      rcases h50 : ind.sma50 with _ | s50 <;>
      simp [hold_context, hr, h20, h50]
  · rcases hr : ind.rsi with _ | r <;>
      simp [hold_context, hr, h20, h50, eq_comm]
  · rcases h with h20 | h50
    · rcases hr : ind.rsi with _ | r <;>
        rcases h50 : ind.sma50 with _ | s50 <;>
        simp [hold_context, hr, h20, h50]
    · rcases hr : ind.rsi with _ | r <;>
        rcases h20 : ind.sma20 with _ | s20 <;>
        simp [hold_context, hr, h20, h50]
  · have hlt : PFloat.lt (.val q) (.val q) = false := by
      simp [PFloat.lt]
    rcases hr : ind.rsi with _ | r <;>
      simp [hold_context, hr, h20, h50, hlt]

/-- C7 witness: RSI = 50, SMA20 = SMA50 = 100, price 100 classifies HOLD with
exactly the contextual notes, whose trend note reads "down" at equality. -/
theorem claim_C7_witness :
    (build_signal ⟨100, some (.val 100), some (.val 100), some (.val 50),
        none, none, none⟩).2 =
      hold_context ⟨100, some (.val 100), some (.val 100), some (.val 50),
        none, none, none⟩ ∧
    Reason.ctxTrend false ∈ hold_context ⟨100, some (.val 100),
      some (.val 100), some (.val 50), none, none, none⟩ :=
  ⟨claim_C7.2.1 _ (by with_unfolding_all decide),
   claim_C7.2.2.2.2.2 _ 100 rfl rfl⟩

/-- C8: the dispatch decision is a pure function of the BUY/SELL tally and
the always-send flag: the report is sent exactly when the flag is set or at
least one BUY or SELL occurred; equal tallies give equal decisions. -/
theorem claim_C8 :
    (∀ (f : Bool) (b s : ℕ),
       should_email f b s = true ↔ (f = true ∨ 0 < b ∨ 0 < s)) ∧
    (∀ inputs : List (String × TickerData),
       main_should_email inputs =
         should_email SEND_EMAIL_IF_NO_BUY (main_run inputs).2.1
           (main_run inputs).2.2) ∧
    (∀ inputs inputs' : List (String × TickerData),
       (main_run inputs).2 = (main_run inputs').2 →
       main_should_email inputs = main_should_email inputs') := by
  refine ⟨fun f b s => ?_, fun inputs => rfl, fun i i' h => ?_⟩
  · simp [should_email, Bool.or_eq_true, decide_eq_true_iff, or_assoc]
  · unfold main_should_email
    rw [show (main_run i).2.1 = (main_run i').2.1 from by rw [h],
       show (main_run i).2.2 = (main_run i').2.2 from by rw [h]]

/-- C8 witness: one BUY forces sending even with the flag off; equal runs
dispatch identically. -/
theorem claim_C8_witness :
    should_email false 1 0 = true ∧
    main_should_email [] = main_should_email [] :=
  ⟨(claim_C8.1 false 1 0).mpr (Or.inr (Or.inl Nat.one_pos)),
   claim_C8.2.2 [] [] rfl⟩

/-- C9: the run yields one row per input ticker in input order (so a
per-ticker failure never aborts the batch, and the report exists even when
every ticker errors); a ticker whose fetch fails gets an error row naming it
and its cause, and any other ticker gets a classified row. -/
theorem claim_C9 :
    (∀ inputs : List (String × TickerData),
       (main_run inputs).1.map Row.ticker = inputs.map Prod.fst) ∧
    (∀ inputs : List (String × TickerData),
       (main_run inputs).1.length = inputs.length) ∧
    (∀ (t : String) (d : TickerData), d.closes = [] →
       process_ticker t d = Row.error t
         ("No price data for " ++ t ++
           " (check symbol or internet connection)")) ∧
    (∀ (t : String) (d : TickerData), d.closes ≠ [] →
       ∃ sig why, process_ticker t d =
         Row.line t (compute_indicators d.closes d.trailingPE d.priceToBook)
           sig why) := by
  refine ⟨fun inputs => ?_, fun inputs => ?_, fun t d h => ?_, fun t d h => ?_⟩
  · rw [main_run_rows, List.map_map]
    apply List.map_congr_left
    intro p _
    exact process_ticker_ticker p.1 p.2
  · rw [main_run_rows, List.length_map]
  · simp [process_ticker, fetch_history, h]
  · have hfe : fetch_history t d.closes = Except.ok d.closes := by
      unfold fetch_history
      rw [if_neg]
      simp [h]
    exact ⟨_, _, by unfold process_ticker; rw [hfe]⟩

/-- C9 witness: an empty-data ticker yields an error row naming it, and a
two-ticker all-error run still yields two rows. -/
theorem claim_C9_witness :
    process_ticker "AAPL" ⟨[], none, none⟩ =
      Row.error "AAPL" ("No price data for " ++ "AAPL" ++
        " (check symbol or internet connection)") ∧
    (main_run [("AAPL", ⟨[], none, none⟩),
      ("TSLA", ⟨[], none, none⟩)]).1.length = 2 :=
  ⟨claim_C9.2.2.1 "AAPL" ⟨[], none, none⟩ rfl,
   by rw [claim_C9.2.1 [("AAPL", ⟨[], none, none⟩),
        ("TSLA", ⟨[], none, none⟩)]]; rfl⟩

/-- C10: both RSI threshold comparisons are strict: RSI exactly at
`RSI_OVERSOLD` contributes no BUY reason, and RSI exactly at
`RSI_OVERBOUGHT` contributes no SELL reason. -/
theorem claim_C10 :
    ∀ ind : Indicators,
      (ind.rsi = some (.val RSI_OVERSOLD) →
        rsi_oversold_cond ind = false ∧
        Reason.rsiOversold ∉ buy_reasons ind) ∧
      (ind.rsi = some (.val RSI_OVERBOUGHT) →
        rsi_overbought_cond ind = false ∧
        Reason.rsiOverbought ∉ sell_reasons ind) := by
  intro ind
  constructor
  · intro h
    have hc : rsi_oversold_cond ind = false := by
      simp [rsi_oversold_cond, h, PFloat.lt]
    refine ⟨hc, ?_⟩
    unfold buy_reasons
    rw [hc]
    split_ifs <;> simp_all
  · intro h
    have hc : rsi_overbought_cond ind = false := by
      simp [rsi_overbought_cond, h, PFloat.lt]
    refine ⟨hc, ?_⟩
    unfold sell_reasons
    rw [hc]
    split_ifs <;> simp_all

/-- C10 witness: RSI = 30 yields no oversold reason and RSI = 70 yields no
overbought reason. -/
theorem claim_C10_witness :
    rsi_oversold_cond ⟨100, none, none, some (.val 30), none, none, none⟩
      = false ∧
    rsi_overbought_cond ⟨100, none, none, some (.val 70), none, none, none⟩
      = false :=
  ⟨((claim_C10 _).1 rfl).1, ((claim_C10 _).2 rfl).1⟩
